import Mathlib

/-!
Shallow embedding of the `newapi-checkin` scripts (`checkin.py`, `linuxdo.py`,
`utils/notify.py`) and proofs about them.

Modelling conventions, fixed once here:
* Every external/browser effect (a playwright navigation, an HTTP response, a
  `page.evaluate`, `localStorage`, `context.cookies`) is an *oracle* input.
  An oracle field of type `Except Exn α` models an `await` that either yields
  a value or raises a Python exception.
* Python exceptions are the two classes the program distinguishes:
  `HTTPError` (from `utils/exceptions.py`, which is not part of the sources;
  modelled from the spec as the "HTTP/response error" classification, carrying
  a message and a status code, whose `str()` is its message) and everything
  else (`generic`).
* JSON values parsed by `json.loads` are modelled by `JsonVal`; a parse
  failure (`json.JSONDecodeError`) is the `none` case of an `Option JsonVal`
  oracle field.  Python truthiness of JSON values is `JsonVal.truthy`.
* Python `float` arithmetic is modelled over `ℚ`; `round(x, 2)` is
  round-half-to-even on rationals (`round2`).  Python's float formatting in
  log strings is stood in for by `toString` on `ℚ`; no claim depends on the
  numeric text.
* Observable effects are an event trace `List Ev`: warning/error log lines,
  `send_notifications` invocations, browser-context/page lifecycle, the call
  of `oauth_authorize`, and the final cache save.  `logging.info` lines are
  not modelled (no claim mentions them).
* Operations the spec never contemplates failing (creating a browser context,
  `add_cookies`, `new_page`, `add_init_script`, `close`, header setting) are
  modelled as infallible.
-/

-- Batteries marks `Rat` arithmetic `@[irreducible]`; re-allow unfolding so
-- concrete runs of the embedding evaluate under `decide` and `rfl`.
attribute [local semireducible] Rat.mul Rat.inv Rat.add Rat.sub

deriving instance DecidableEq for Except

/-- A JSON value as produced by Python's `json.loads`. -/
inductive JsonVal where
  | null : JsonVal
  | bool (b : Bool) : JsonVal
  | num (q : ℚ) : JsonVal
  | str (s : String) : JsonVal
  | arr (elems : List JsonVal) : JsonVal
  | obj (fields : List (String × JsonVal)) : JsonVal

/-- Python truthiness of a JSON value (`None`, `False`, `0`, `""`, `[]`, `{}`
are falsy). -/
def JsonVal.truthy : JsonVal → Bool
  | .null => false
  | .bool b => b
  | .num q => if q = 0 then false else true
  | .str s => if s = "" then false else true
  | .arr elems => !elems.isEmpty
  | .obj fields => !fields.isEmpty

/-- The exception classification the program uses: `HTTPError`
(from the absent `utils/exceptions.py`; modelled from the spec's
"HTTP/response error" class, message plus status code) versus any other
Python exception. -/
inductive Exn where
  | http (msg : String) (status : Nat) : Exn
  | generic (msg : String) : Exn
  deriving DecidableEq, Repr

/-- Python `str(e)` of an exception as used in log messages. -/
def Exn.pyMsg : Exn → String
  | .http m _ => m
  | .generic m => m

/-- Python `d.get(k, default)` on a parsed JSON value: attribute error when the
value is not a JSON object (Python dicts only have `.get`). -/
def pyGetD (v : JsonVal) (k : String) (dflt : JsonVal) : Except Exn JsonVal :=
  match v with
  | .obj fields => .ok ((fields.lookup k).getD dflt)
  | _ => .error (.generic "AttributeError: object has no attribute get")

/-- Python `d[k]` on a parsed JSON value: `KeyError` when absent, `TypeError`-ish
when not an object. -/
def pyGetItem (v : JsonVal) (k : String) : Except Exn JsonVal :=
  match v with
  | .obj fields =>
      match fields.lookup k with
      | some w => .ok w
      | none => .error (.generic ("KeyError: " ++ k))
  | _ => .error (.generic "TypeError: value is not subscriptable")

/-- Numeric coercion for Python arithmetic on a JSON value
(`True`/`False` are the ints 1/0 in Python; anything non-numeric raises
`TypeError`). -/
def pyNum : JsonVal → Except Exn ℚ
  | .num q => .ok q
  | .bool b => .ok (if b then 1 else 0)
  | _ => .error (.generic "TypeError: unsupported operand type for /")

/-- Python `str()` of a JSON value, as far as the program observes it (only its
truthiness as a string matters to any claim). -/
def pyStr : JsonVal → String
  | .null => "None"
  | .bool b => if b then "True" else "False"
  | .num q => toString q
  | .str s => s
  | .arr _ => "[...]"
  | .obj _ => "..."

/-- Floor of a rational, executably (`Int.fdiv` floors). -/
def ratFloor (x : ℚ) : ℤ := Int.fdiv x.num (x.den : ℤ)

/-- Round-half-to-even to an integer, Python's `round(x)` on exact values. -/
def roundHalfEven (x : ℚ) : ℤ :=
  let f := ratFloor x
  let r := x - (f : ℚ)
  if r < 1/2 then f
  else if 1/2 < r then f + 1
  else if f % 2 = 0 then f else f + 1

/-- Python `round(x, 2)` over exact rationals. -/
def round2 (x : ℚ) : ℚ := (roundHalfEven (x * 100) : ℚ) / 100

/-- Constant of `checkin.py` line 16. -/
def QUOTA_DIVISOR : ℚ := 500000

/-- Constant of `checkin.py` line 17. -/
def DEFAULT_ENDPOINT : String := "/api/user/sign_in"

/-- What the program observes of one HTTP response delivered by
`page.goto`: `ok`, `status`, body text, and the result of `json.loads`
on that text (`none` = `json.JSONDecodeError`). -/
structure RespData where
  ok : Bool
  status : Nat
  text : String
  parsed : Option JsonVal

/-- Observable events of a run: warning/error logs, notification fan-out
invocations, browser resource lifecycle, the `oauth_authorize` call, the
cache save. -/
inductive Ev where
  | logWarn (msg : String) : Ev
  | logError (msg : String) : Ev
  | notify (title : String) (msg : String) : Ev
  | openFallbackCtx : Ev
  | closeFallbackCtx : Ev
  | openOauthPage : Ev
  | closeOauthPage : Ev
  | oauthCall : Ev
  | saveCache : Ev
  deriving DecidableEq, Repr

/-- Embeds `checkin.py` lines 73–97, `get_quota`.  The oracle is the balance-probe
response (`none` = `page.goto` returned no response object). -/
def get_quota (resp : Option RespData) : Except Exn ℚ :=
  let text := match resp with | some r => r.text | none => ""
  match resp with
  | none => .error (Exn.http "[/api/user/self] No response" 0)
  | some r =>
    if !r.ok then
      .error (Exn.http ("[/api/user/self] HTTP " ++ toString r.status ++ ": " ++ text.take 100) r.status)
    else
      match r.parsed with
      | none => .error (Exn.http "[/api/user/self] Invalid JSON response" r.status)
      | some data =>
        match pyGetD data "success" JsonVal.null with
        | .error e => .error e
        | .ok succ =>
          if !succ.truthy then
            .error (Exn.http "[/api/user/self] Failed to get user info" r.status)
          else
            match pyGetD data "data" (JsonVal.obj []) with
            | .error e => .error e
            | .ok user_data =>
              match pyGetD user_data "quota" (JsonVal.num 0) with
              | .error e => .error e
              | .ok quotaRaw =>
                match pyNum quotaRaw with
                | .error e => .error e
                | .ok quotaNum =>
                  let quota := round2 (quotaNum / QUOTA_DIVISOR)
                  match pyGetD user_data "used_quota" (JsonVal.num 0) with
                  | .error e => .error e
                  | .ok usedRaw =>
                    match pyNum usedRaw with
                    | .error e => .error e
                    | .ok usedNum =>
                      let _used_quota := round2 (usedNum / QUOTA_DIVISOR)
                      .ok quota

/-- Embeds `checkin.py` lines 100–105, `do_checkin`.  The oracle is the outcome of
the `page.evaluate` POST (its text is only logged at info level). -/
def do_checkin (checkinResp : Except Exn String) : Except Exn Unit :=
  match checkinResp with
  | .error e => .error e
  | .ok _ => .ok ()

/-- The three external interactions of one `_run_checkin` call. -/
structure RunOracle where
  resp1 : Option RespData
  checkin : Except Exn String
  resp2 : Option RespData

/-- Embeds `checkin.py` lines 182–192, `_run_checkin`: probe, check in, probe; send
a success notification exactly when the balance strictly increased.
Returns the notification events it emitted, or the exception it let
propagate. -/
def run_checkin (name : String) (o : RunOracle) : Except Exn (List Ev) :=
  match get_quota o.resp1 with
  | .error e => .error e
  | .ok old_quota =>
    match do_checkin o.checkin with
    | .error e => .error e
    | .ok _ =>
      match get_quota o.resp2 with
      | .error e => .error e
      | .ok new_quota =>
        if new_quota > old_quota then
          .ok [Ev.notify "!! NewAPI Checkin Success !!"
            ("[" ++ name ++ "] Checkin success, Quota: " ++ toString old_quota ++ " -> " ++ toString new_quota)]
        else
          .ok []

/-- One account record from the config (`account.get(...)` fields; `none` =
key absent). -/
structure Account where
  name : Option String
  domain : Option String
  endpoint : Option String
  client_id : Option String

/-- One entry of the cookies cache: `{api_user, cookies}` where `cookies`
maps cookie name to value. -/
structure CacheEntry where
  api_user : String
  cookies : List (String × String)
  deriving DecidableEq, Repr

/-- The in-memory cookies cache: domain → entry. -/
def Cache := String → Option CacheEntry

/-- Embeds `checkin.py` lines 68–70, `update_cookies_cache`: replace the whole
entry of one domain. -/
def update_cookies_cache (cache : Cache) (domain : String) (api_user : String)
    (cookies : List (String × String)) : Cache :=
  fun d => if d = domain then some ⟨api_user, cookies⟩ else cache d

/-- Python truthiness of an optional string (`None` and `''` are falsy). -/
def optStrTruthy : Option String → Bool
  | none => false
  | some s => !(s == "")

/-- Python `'needle' in hay` substring test. -/
def strContainsSub (hay needle : String) : Bool :=
  (List.range (hay.length + 1)).any (fun i => needle.data.isPrefixOf (hay.data.drop i))

/-- Python `s.rstrip('/')`. -/
def rstripSlash (s : String) : String :=
  ⟨(s.data.reverse.dropWhile (fun c => c = '/')).reverse⟩

/-- External interactions of one `oauth_authorize` call (`linuxdo.py` lines
96–171).  `stateParsed` is `json.loads` of the OAuth-state response body
(`none` = decode error, which the code turns into `{}`); `urlFinal` is
`page.url` at the redirect check of line 152 (the approve-button block of
lines 139–149 catches all its own failures and only moves the page, so it
is absorbed into `urlFinal`); `user` is the parsed `localStorage.user`
(`null` when absent); `cookies` is `context.cookies(domain)` as a dict. -/
structure OauthOracle where
  gotoDomain : Except Exn Unit
  stateReq : Except Exn Unit
  stateParsed : Option JsonVal
  gotoAuthorize : Except Exn Unit
  urlFinal : String
  user : JsonVal
  cookies : List (String × String)

/-- Embeds `linuxdo.py` lines 96–171, `oauth_authorize`.  Returns the events it
logged together with `(api_user, cookies_dict)` — `(none, [])` models the
Python `(None, None)` failure return — or the exception it let propagate. -/
def oauth_authorize (account : Account) (o : OauthOracle) :
    Except Exn (List Ev × Option String × List (String × String)) :=
  let name := account.name.getD "Unknown"
  let domain := account.domain.getD ""
  let _client_id := account.client_id.getD ""
  match o.gotoDomain with
  | .error e => .error e
  | .ok _ =>
    match o.stateReq with
    | .error e => .error e
    | .ok _ =>
      let state_data := o.stateParsed.getD (JsonVal.obj [])
      match pyGetD state_data "data" (JsonVal.str "") with
      | .error e => .error e
      | .ok state =>
        if !state.truthy then
          .ok ([Ev.logError ("[" ++ name ++ "] Empty OAuth state")], none, [])
        else
          match o.gotoAuthorize with
          | .error e => .error e
          | .ok _ =>
            if strContainsSub o.urlFinal (rstripSlash domain) then
              if o.user.truthy then
                match pyGetItem o.user "id" with
                | .error e => .error e
                | .ok idv => .ok (([] : List Ev), some (pyStr idv), o.cookies)
              else
                .ok (([] : List Ev), none, o.cookies)
            else
              .ok ([Ev.logWarn ("[" ++ name ++ "] OAuth may have failed, ended at: " ++ o.urlFinal)],
                none, [])

/-- External interactions of one `process_account` call: the cached-cookies
attempt (`page.goto(domain)` plus `wait_for_load_state`, then a
`_run_checkin`), and the OAuth fallback (the `oauth_authorize` oracle and
its `_run_checkin`). -/
structure AccountOracle where
  cachedGoto : Except Exn Unit
  cachedRun : RunOracle
  oauth : OauthOracle
  oauthRun : RunOracle

/-- The body of the cached-cookies try block (`checkin.py` lines 141–143):
navigate to the domain, then run the check-in flow. -/
def cachedAttempt (name : String) (o : AccountOracle) : Except Exn (List Ev) :=
  match o.cachedGoto with
  | .error e => .error e
  | .ok _ => run_checkin name o.cachedRun

/-- The two outer `except` handlers of `process_account` (`checkin.py`
lines 172–179): log and notify, classified by exception kind.  The caller
prepends the events that happened before the exception reached the
handlers. -/
def accountExcept (name : String) (cache : Cache) (e : Exn) : Cache × List Ev :=
  match e with
  | .http m s =>
      let err_msg := "[" ++ name ++ "] HTTP error: " ++ (Exn.http m s).pyMsg
      (cache, [Ev.logError err_msg, Ev.notify "!! NewAPI Checkin Error !!" err_msg])
  | .generic m =>
      let err_msg := "[" ++ name ++ "] Execution error: " ++ m
      (cache, [Ev.logError err_msg, Ev.notify "!! NewAPI Checkin Error !!" err_msg])

/-- Step 2 of `process_account` (`checkin.py` lines 150–170): bail out when
no identity-provider context is available, else open a page on it, run
`oauth_authorize`, cache and use the fresh cookies when both results are
truthy, and close the page on every path (`finally`) before the outer
handlers run.  The caller prepends the events of step 1. -/
def oauthStep (linuxdoCtx : Bool) (name : String) (domain : String) (account : Account)
    (cache : Cache) (o : AccountOracle) (hadCached : Bool) : Cache × List Ev :=
  if !linuxdoCtx then
    (cache, [Ev.logError (if hadCached then
        "[" ++ name ++ "] Checkin failed and OAuth unavailable, skipping"
      else
        "[" ++ name ++ "] No cached cookies and OAuth unavailable, skipping")])
  else
    match oauth_authorize account o.oauth with
    | .error e =>
        let h := accountExcept name cache e
        (h.1, [Ev.openOauthPage, Ev.oauthCall, Ev.closeOauthPage] ++ h.2)
    | .ok (oevs, api_user, cookies_dict) =>
      if optStrTruthy api_user && !cookies_dict.isEmpty then
        -- the guard makes `api_user` a `some`; `getD ""` is never the default
        let cache' := update_cookies_cache cache domain (api_user.getD "") cookies_dict
        match run_checkin name o.oauthRun with
        | .ok revs =>
            (cache', [Ev.openOauthPage, Ev.oauthCall] ++ oevs ++ revs ++ [Ev.closeOauthPage])
        | .error e =>
            let h := accountExcept name cache' e
            (h.1, [Ev.openOauthPage, Ev.oauthCall] ++ oevs ++ [Ev.closeOauthPage] ++ h.2)
      else
        (cache, [Ev.openOauthPage, Ev.oauthCall] ++ oevs ++
          [Ev.logError ("[" ++ name ++ "] OAuth returned empty cookies"), Ev.closeOauthPage])

/-- Embeds `checkin.py` lines 122–179, `process_account`.  `linuxdoCtx` is whether
`main` obtained an identity-provider context.  Returns the cache after the
call and the event trace; it never propagates an exception (the outer
handlers catch everything). -/
def process_account (linuxdoCtx : Bool) (account : Account) (cache : Cache)
    (o : AccountOracle) : Cache × List Ev :=
  let name := account.name.getD "Unknown"
  let domain := account.domain.getD ""
  let _endpoint := account.endpoint.getD DEFAULT_ENDPOINT
  if domain = "" then
    (cache, [Ev.logWarn ("[" ++ name ++ "] Missing domain, skipping")])
  else
    match cache domain with
    | some _entry =>
        match cachedAttempt name o with
        | .ok revs => (cache, [Ev.openFallbackCtx] ++ revs ++ [Ev.closeFallbackCtx])
        | .error e =>
            let r := oauthStep linuxdoCtx name domain account cache o true
            (r.1, [Ev.openFallbackCtx,
                   Ev.logWarn ("[" ++ name ++ "] Checkin with cached cookies failed: " ++ e.pyMsg),
                   Ev.closeFallbackCtx] ++ r.2)
    | none => oauthStep linuxdoCtx name domain account cache o false

/-- One notification-config entry (`cfg.get("type")`, `cfg.get("url")`). -/
structure NotifyCfg where
  type_ : Option String
  url : Option String
  deriving DecidableEq, Repr

/-- Embeds `utils/notify.py` lines 13–16: an ntfy sink (its URL may be `None` when
the config lacks one; `requests.post(None, ...)` then raises inside the
guarded block). -/
structure NtfyNotifier where
  url : Option String
  deriving DecidableEq, Repr

/-- Embeds `utils/notify.py` lines 27–32, `create_notifiers`: keep the entries whose
type is `"ntfy"`. -/
def create_notifiers (cfgs : List NotifyCfg) : List NtfyNotifier :=
  cfgs.filterMap (fun cfg => if cfg.type_ == some "ntfy" then some ⟨cfg.url⟩ else none)

/-- Observable events of the notification fan-out: the `requests.post`
attempt of one sink, its success log, or its caught-failure error log. -/
inductive NotifyEv where
  | attempted (url : Option String) (title : String) : NotifyEv
  | sent (url : Option String) : NotifyEv
  | errLogged (url : Option String) : NotifyEv
  deriving DecidableEq, Repr

/-- The guarded body of `NtfyNotifier.send` (`utils/notify.py` lines 19–22):
POST, raise on bad status (`raise_for_status`), log success.  The oracle is
the `requests.post` outcome (`.error` = the POST itself raised, e.g. a
`None` URL or a network failure). -/
def ntfySendBody (n : NtfyNotifier) (post : Except Exn Nat) : Except Exn NotifyEv :=
  match post with
  | .error e => .error e
  | .ok status =>
    if 400 ≤ status then
      .error (Exn.generic ("HTTPError: " ++ toString status))
    else
      .ok (NotifyEv.sent n.url)

/-- Embeds `utils/notify.py` lines 18–24, `NtfyNotifier.send`: the whole body is in
a `try`/`except Exception` that logs and swallows, so `send` is total. -/
def NtfyNotifier.send (n : NtfyNotifier) (title : String) (_message : String)
    (post : Except Exn Nat) : List NotifyEv :=
  NotifyEv.attempted n.url title ::
    (match ntfySendBody n post with
     | .ok ev => [ev]
     | .error _ => [NotifyEv.errLogged n.url])

/-- The `for notifier in notifiers` loop of `send_notifications`
(`utils/notify.py` lines 38–39); `posts i` is the POST outcome for the
`i`-th notifier. -/
def sendLoop (title message : String) :
    List NtfyNotifier → (Nat → Except Exn Nat) → Nat → List NotifyEv
  | [], _, _ => []
  | n :: rest, posts, i =>
      n.send title message (posts i) ++ sendLoop title message rest posts (i + 1)

/-- Embeds `utils/notify.py` lines 35–39, `send_notifications`: early return on an
empty list, else invoke `send` on every notifier in order.  The `Except`
result type records that no exception reaches the caller. -/
def send_notifications (notifiers : List NtfyNotifier) (title message : String)
    (posts : Nat → Except Exn Nat) : Except Exn (List NotifyEv) :=
  if notifiers.isEmpty then .ok []
  else .ok (sendLoop title message notifiers posts 0)

/-- The configuration `load_config` produces: account list, notification
sinks, and the LinuxDo credentials (present only when both env vars are
truthy). -/
structure Config where
  accounts : List Account
  notifications : List NotifyCfg
  linuxdo : Option (String × String)

/-- The environment `load_config` reads: the four variables, the parse
results of the JSON ones (`none` = `json.JSONDecodeError`), and the
`config.json` fallback (`none` also covers an unreadable file; either way
the raise is an unclassified exception). -/
structure Env where
  linuxdo_email : Option String
  linuxdo_password : Option String
  accounts_env : Option String
  notify_env : Option String
  accountsEnvParsed : Option (List Account)
  notifyEnvParsed : Option (List NotifyCfg)
  configFileExists : Bool
  configFileParsed : Option Config

/-- Embeds `checkin.py` lines 21–47, `load_config`: `CHECKIN_ACCOUNTS` wins when
truthy, else `config.json` when present, else `RuntimeError`; the LinuxDo
credentials always come from the environment and override the file. -/
def load_config (env : Env) : Except Exn Config :=
  -- lines 42–45: LinuxDo credentials always from environment variables
  let withCreds : Config → Config := fun base =>
    if optStrTruthy env.linuxdo_email && optStrTruthy env.linuxdo_password then
      { base with linuxdo := some (env.linuxdo_email.getD "", env.linuxdo_password.getD "") }
    else
      { base with linuxdo := none }
  if optStrTruthy env.accounts_env then
    match env.accountsEnvParsed with
    | none => .error (Exn.generic "json.JSONDecodeError: CHECKIN_ACCOUNTS")
    | some accounts =>
      if optStrTruthy env.notify_env then
        match env.notifyEnvParsed with
        | none => .error (Exn.generic "json.JSONDecodeError: CHECKIN_NOTIFY")
        | some notifications => .ok (withCreds ⟨accounts, notifications, none⟩)
      else
        .ok (withCreds ⟨accounts, [], none⟩)
  else if env.configFileExists then
    match env.configFileParsed with
    | some cf => .ok (withCreds cf)
    | none => .error (Exn.generic "json.JSONDecodeError: config.json")
  else
    .error (Exn.generic "RuntimeError: No config found. Set CHECKIN_ACCOUNTS env or create config.json")

/-- External interactions of `main` beyond the per-account ones: the
LinuxDo login attempt, one `AccountOracle` per account index, the cache
file write, and the storage-state write. -/
structure MainOracle where
  loginResult : Except Exn Unit
  accountOracles : Nat → AccountOracle
  saveResult : Except Exn Unit
  storageStateResult : Except Exn Unit

/-- The `for account in accounts` loop of `main` (`checkin.py` lines
224–225): fold `process_account` over the accounts, threading the cache
and concatenating the traces; also counts the accounts processed. -/
def processAll (linuxdoCtx : Bool) (oracles : Nat → AccountOracle) :
    List Account → Cache → Nat → Cache × List Ev × Nat
  | [], cache, _ => (cache, [], 0)
  | a :: rest, cache, i =>
      let r1 := process_account linuxdoCtx a cache (oracles i)
      let r2 := processAll linuxdoCtx oracles rest r1.1 (i + 1)
      (r2.1, r1.2 ++ r2.2.1, r2.2.2 + 1)

/-- What a completed `main` run yields: the final in-memory cache, the event
trace, and how many accounts were processed. -/
structure MainRes where
  finalCache : Cache
  events : List Ev
  processed : Nat

/-- Embeds `checkin.py` lines 195–243, `main`.  `cache0` is the cache read at start
(`load_cookies_cache`; a corrupt file already yields `{}` there).  Browser
launch and context close are modelled infallible.  A `login_linuxdo` raise
is caught (lines 220–221) and leaves the context unset; a
`save_cookies_cache` raise is caught by the outer handler (line 238); a
`storage_state` raise is caught by its own handler (lines 235–236).  The
only exception `main` propagates is one from `load_config`.
(Lean reserves the name `main`, hence `main_run`.) -/
def main_run (env : Env) (cache0 : Cache) (mo : MainOracle) : Except Exn MainRes :=
  match load_config env with
  | .error e => .error e
  | .ok config =>
  let _notifiers := create_notifiers config.notifications
  let loginAttempted :=
    match config.linuxdo with
    | some (e, p) => optStrTruthy (some e) && optStrTruthy (some p)
    | none => false
  let linuxdoCtx := loginAttempted &&
    (match mo.loginResult with | .ok _ => true | .error _ => false)
  let loginEvs :=
    if loginAttempted then
      match mo.loginResult with
      | .ok _ => []
      | .error e => [Ev.logError ("LinuxDo login failed: " ++ e.pyMsg ++ ", will use cached cookies")]
    else []
  let r := processAll linuxdoCtx mo.accountOracles config.accounts cache0 0
  match mo.saveResult with
  | .ok _ =>
      let stateEvs :=
        if linuxdoCtx then
          match mo.storageStateResult with
          | .ok _ => []
          | .error e => [Ev.logWarn ("Failed to save LinuxDo state: " ++ e.pyMsg)]
        else []
      .ok ⟨r.1, loginEvs ++ r.2.1 ++ [Ev.saveCache] ++ stateEvs, r.2.2⟩
  | .error e =>
      .ok ⟨r.1, loginEvs ++ r.2.1 ++ [Ev.saveCache, Ev.logError ("Execution error: " ++ e.pyMsg)], r.2.2⟩

/-! ## Helper predicates and fixtures -/

/-- Whether an exception is the classified `HTTPError`. -/
def Exn.isHttp : Exn → Bool
  | .http _ _ => true
  | .generic _ => false

/-- Whether an event is a `send_notifications` invocation. -/
def Ev.isNotify : Ev → Bool
  | .notify _ _ => true
  | _ => false

/-- Whether an event is a success notification. -/
def Ev.isSuccessNotify : Ev → Bool
  | .notify t _ => t == "!! NewAPI Checkin Success !!"
  | _ => false

/-- Whether an event is a log line. -/
def Ev.isLog : Ev → Bool
  | .logWarn _ => true
  | .logError _ => true
  | _ => false

/-- A balance-probe response whose body is
`{"success": true, "data": {"quota": q}}`. -/
def respOkQuota (q : ℚ) : RespData :=
  ⟨true, 200, "body", some (JsonVal.obj
    [("success", JsonVal.bool true), ("data", JsonVal.obj [("quota", JsonVal.num q)])])⟩

/-- A `_run_checkin` oracle with two successful probes yielding raw quotas
`a` and `b`. -/
def runOk (a b : ℚ) : RunOracle := ⟨some (respOkQuota a), .ok "checked", some (respOkQuota b)⟩

/-- The empty cookies cache. -/
def emptyCache : Cache := fun _ => none

/-- An `oauth_authorize` oracle for a fully successful flow against the
domain `https://x.y`. -/
def oauthOkOracle : OauthOracle :=
  ⟨.ok (), .ok (), some (JsonVal.obj [("data", JsonVal.str "st")]), .ok (),
   "https://x.y/console", JsonVal.obj [("id", JsonVal.num 7)], [("session", "s")]⟩

/-- A fully successful account oracle (cached attempt and OAuth both fine,
quota 10.0 → 12.0 after division). -/
def aoFix : AccountOracle := ⟨.ok (), runOk 5000000 6000000, oauthOkOracle, runOk 5000000 6000000⟩

/-- The fixture account with domain `https://x.y`. -/
def acctFix : Account := ⟨some "A", some "https://x.y", none, some "cid"⟩

/-! ## Shape lemmas -/

/-- A completed `_run_checkin` emits only notification events. -/
theorem run_checkin_ok_all_notify (name : String) (o : RunOracle) (evs : List Ev)
    (h : run_checkin name o = .ok evs) : evs.all Ev.isNotify = true := by
  unfold run_checkin at h
  cases hq1 : get_quota o.resp1 with
  | error e => rw [hq1] at h; exact absurd h (by simp)
  | ok old_quota =>
    rw [hq1] at h
    cases hc : do_checkin o.checkin with
    | error e => rw [hc] at h; exact absurd h (by simp)
    | ok u =>
      rw [hc] at h
      cases hq2 : get_quota o.resp2 with
      | error e => rw [hq2] at h; exact absurd h (by simp)
      | ok new_quota =>
        rw [hq2] at h
        dsimp only at h
        by_cases hlt : new_quota > old_quota
        · rw [if_pos hlt] at h
          cases h
          simp [Ev.isNotify]
        · rw [if_neg hlt] at h
          cases h
          simp

/-- A completed `oauth_authorize` emits only log events. -/
theorem oauth_ok_all_log (account : Account) (o : OauthOracle) (oevs : List Ev)
    (au : Option String) (cd : List (String × String))
    (h : oauth_authorize account o = .ok (oevs, au, cd)) : oevs.all Ev.isLog = true := by
  unfold oauth_authorize at h
  dsimp only at h
  repeat' split at h
  all_goals first
    | exact Except.noConfusion h
    | (simp only [Except.ok.injEq, Prod.mk.injEq] at h
       rcases h with ⟨h1, -, -⟩
       subst h1
       simp [Ev.isLog])

/-- Constructor tests used for counting lifecycle events. -/
def Ev.isOpenFallback : Ev → Bool
  | .openFallbackCtx => true
  | _ => false

/-- See `Ev.isOpenFallback`. -/
def Ev.isCloseFallback : Ev → Bool
  | .closeFallbackCtx => true
  | _ => false

/-- See `Ev.isOpenFallback`. -/
def Ev.isOpenOauthPage : Ev → Bool
  | .openOauthPage => true
  | _ => false

/-- See `Ev.isOpenFallback`. -/
def Ev.isCloseOauthPage : Ev → Bool
  | .closeOauthPage => true
  | _ => false

/-- See `Ev.isOpenFallback`. -/
def Ev.isOauthCall : Ev → Bool
  | .oauthCall => true
  | _ => false

/-- A list all of whose members satisfy `p` has no members counted by a
predicate disjoint from `p`. -/
theorem countP_zero_of_all {p q : Ev → Bool} {evs : List Ev}
    (h : evs.all p = true) (hpq : ∀ ev, p ev = true → q ev = false) :
    evs.countP q = 0 := by
  rw [List.countP_eq_zero]
  intro a ha
  have hpa := List.all_eq_true.mp h a ha
  simp [hpq a hpa]

/-- A list of log events contributes nothing to the lifecycle or
notification counts. -/
theorem all_log_counts {evs : List Ev} (h : evs.all Ev.isLog = true) :
    evs.countP Ev.isOpenFallback = 0 ∧ evs.countP Ev.isCloseFallback = 0 ∧
    evs.countP Ev.isOpenOauthPage = 0 ∧ evs.countP Ev.isCloseOauthPage = 0 ∧
    evs.countP Ev.isOauthCall = 0 ∧ evs.countP Ev.isNotify = 0 ∧
    evs.countP Ev.isSuccessNotify = 0 := by
  refine ⟨?_, ?_, ?_, ?_, ?_, ?_, ?_⟩ <;>
    (apply countP_zero_of_all h
     intro ev hev
     cases ev <;> simp_all [Ev.isLog, Ev.isOpenFallback, Ev.isCloseFallback,
       Ev.isOpenOauthPage, Ev.isCloseOauthPage, Ev.isOauthCall, Ev.isNotify, Ev.isSuccessNotify])

/-- A list of notification events contributes nothing to the lifecycle or
log counts. -/
theorem all_notify_counts {evs : List Ev} (h : evs.all Ev.isNotify = true) :
    evs.countP Ev.isOpenFallback = 0 ∧ evs.countP Ev.isCloseFallback = 0 ∧
    evs.countP Ev.isOpenOauthPage = 0 ∧ evs.countP Ev.isCloseOauthPage = 0 ∧
    evs.countP Ev.isOauthCall = 0 ∧ evs.countP Ev.isLog = 0 := by
  refine ⟨?_, ?_, ?_, ?_, ?_, ?_⟩ <;>
    (apply countP_zero_of_all h
     intro ev hev
     cases ev <;> simp_all [Ev.isLog, Ev.isOpenFallback, Ev.isCloseFallback,
       Ev.isOpenOauthPage, Ev.isCloseOauthPage, Ev.isOauthCall, Ev.isNotify])

/-- Branch bookkeeping for `oauthStep`: it opens no fallback context, and it
opens the OAuth page exactly as often as it closes it. -/
theorem oauthStep_counts (ctx : Bool) (name domain : String) (acc : Account)
    (cache : Cache) (o : AccountOracle) (had : Bool) :
    (oauthStep ctx name domain acc cache o had).2.countP Ev.isOpenFallback = 0 ∧
    (oauthStep ctx name domain acc cache o had).2.countP Ev.isCloseFallback = 0 ∧
    (oauthStep ctx name domain acc cache o had).2.countP Ev.isOpenOauthPage =
      (oauthStep ctx name domain acc cache o had).2.countP Ev.isCloseOauthPage := by
  unfold oauthStep
  split
  · simp [Ev.isOpenFallback, Ev.isCloseFallback, Ev.isOpenOauthPage, Ev.isCloseOauthPage]
  · split
    case h_1 x e heq =>
      unfold accountExcept
      split <;>
        simp [Ev.isOpenFallback, Ev.isCloseFallback, Ev.isOpenOauthPage, Ev.isCloseOauthPage]
    case h_2 x oevs au cd heq =>
      have hall := oauth_ok_all_log acc o.oauth oevs au cd heq
      obtain ⟨ha1, ha2, ha3, ha4, -, -, -⟩ := all_log_counts hall
      split
      · split
        case h_1 revs hrun =>
          have hrall := run_checkin_ok_all_notify name o.oauthRun revs hrun
          obtain ⟨hb1, hb2, hb3, hb4, -, -⟩ := all_notify_counts hrall
          refine ⟨?_, ?_, ?_⟩ <;>
            simp [List.countP_append, List.countP_cons, ha1, ha2, ha3, ha4, hb1, hb2, hb3, hb4,
              Ev.isOpenFallback, Ev.isCloseFallback, Ev.isOpenOauthPage, Ev.isCloseOauthPage]
        case h_2 e hrun =>
          unfold accountExcept
          split <;>
            (refine ⟨?_, ?_, ?_⟩ <;>
              simp [List.countP_append, List.countP_cons, ha1, ha2, ha3, ha4,
                Ev.isOpenFallback, Ev.isCloseFallback, Ev.isOpenOauthPage, Ev.isCloseOauthPage])
      · refine ⟨?_, ?_, ?_⟩ <;>
          simp [List.countP_append, List.countP_cons, ha1, ha2, ha3, ha4,
            Ev.isOpenFallback, Ev.isCloseFallback, Ev.isOpenOauthPage, Ev.isCloseOauthPage]

/-- A completed cached-cookies attempt emits only notification events. -/
theorem cachedAttempt_ok_all_notify (name : String) (o : AccountOracle) (revs : List Ev)
    (h : cachedAttempt name o = .ok revs) : revs.all Ev.isNotify = true := by
  unfold cachedAttempt at h
  cases hg : o.cachedGoto with
  | error e => rw [hg] at h; exact absurd h (by simp)
  | ok u => rw [hg] at h; exact run_checkin_ok_all_notify name o.cachedRun revs h

/-- C7: on every exit path of `process_account` the fallback browser context
created by `_create_fallback_context` is closed as often as it is opened,
and likewise the page opened on the identity-provider context for the OAuth
path — whether the check-in attempts succeed or raise. -/
theorem process_account_closes_resources (ctx : Bool) (acc : Account) (cache : Cache)
    (o : AccountOracle) :
    (process_account ctx acc cache o).2.countP Ev.isOpenFallback =
      (process_account ctx acc cache o).2.countP Ev.isCloseFallback ∧
    (process_account ctx acc cache o).2.countP Ev.isOpenOauthPage =
      (process_account ctx acc cache o).2.countP Ev.isCloseOauthPage := by
  obtain ⟨oc1, oc2, oc3⟩ := oauthStep_counts ctx (acc.name.getD "Unknown") (acc.domain.getD "")
    acc cache o false
  obtain ⟨od1, od2, od3⟩ := oauthStep_counts ctx (acc.name.getD "Unknown") (acc.domain.getD "")
    acc cache o true
  unfold process_account
  dsimp only
  split
  · simp [Ev.isOpenFallback, Ev.isCloseFallback, Ev.isOpenOauthPage, Ev.isCloseOauthPage]
  · split
    case h_1 _entry heq =>
      split
      case h_1 revs hrun =>
        have hrall := cachedAttempt_ok_all_notify (acc.name.getD "Unknown") o revs hrun
        obtain ⟨hb1, hb2, hb3, hb4, -, -⟩ := all_notify_counts hrall
        constructor <;>
          simp [List.countP_append, List.countP_cons, hb1, hb2, hb3, hb4,
            Ev.isOpenFallback, Ev.isCloseFallback, Ev.isOpenOauthPage, Ev.isCloseOauthPage]
      case h_2 e hrun =>
        constructor <;>
          simp [List.countP_append, List.countP_cons, od1, od2, od3,
            Ev.isOpenFallback, Ev.isCloseFallback, Ev.isOpenOauthPage, Ev.isCloseOauthPage]
    case h_2 heq =>
      exact ⟨oc1.trans oc2.symm, oc3⟩

/-- C10: an account whose `domain` key is missing or empty makes
`process_account` return immediately after the warning log — no network
call, no browser context, no notification, and the cookies cache is
exactly the one passed in. -/
theorem process_account_missing_domain (ctx : Bool) (acc : Account) (cache : Cache)
    (o : AccountOracle) (h : acc.domain = none ∨ acc.domain = some "") :
    process_account ctx acc cache o =
      (cache, [Ev.logWarn ("[" ++ acc.name.getD "Unknown" ++ "] Missing domain, skipping")]) := by
  unfold process_account
  rcases h with h | h <;> rw [h] <;> simp

/-- Witness for `process_account_missing_domain` at a concrete account. -/
theorem process_account_missing_domain_witness :
    process_account false ⟨some "A", none, none, none⟩ emptyCache aoFix =
      (emptyCache, [Ev.logWarn "[A] Missing domain, skipping"]) :=
  process_account_missing_domain false ⟨some "A", none, none, none⟩ emptyCache aoFix (Or.inl rfl)

/-- C1: in `_run_checkin`, for every pair of balances obtained by the two
`get_quota` calls around `do_checkin`, a success notification is sent iff
the new quota strictly exceeds the old; in particular the balance sequence
(10.0, 10.0) emits no success notification and no failure report (the run
returns an empty trace without raising), while (10.0, 12.0) emits exactly
one. -/
theorem run_checkin_success_notification :
    (∀ (name : String) (o : RunOracle) (oldq newq : ℚ) (evs : List Ev),
      get_quota o.resp1 = .ok oldq → get_quota o.resp2 = .ok newq →
      run_checkin name o = .ok evs →
      evs.countP Ev.isSuccessNotify = (if newq > oldq then 1 else 0)) ∧
    run_checkin "Account" (runOk 5000000 5000000) = .ok [] ∧
    (run_checkin "Account" (runOk 5000000 6000000)).map
      (fun evs => evs.countP Ev.isSuccessNotify) = .ok 1 := by
  refine ⟨?_, by decide, by decide⟩
  intro name o oldq newq evs h1 h2 h3
  unfold run_checkin at h3
  rw [h1] at h3
  cases hc : do_checkin o.checkin with
  | error e => rw [hc] at h3; exact absurd h3 (by simp)
  | ok u =>
    rw [hc, h2] at h3
    dsimp only at h3
    by_cases hlt : newq > oldq
    · rw [if_pos hlt] at h3
      cases h3
      rw [if_pos hlt]
      simp [Ev.isSuccessNotify]
    · rw [if_neg hlt] at h3
      cases h3
      rw [if_neg hlt]
      simp

/-- Witness for `run_checkin_success_notification` at raw quotas
5 000 000 → 7 000 000 (balances 10.0 → 14.0). -/
theorem run_checkin_success_notification_witness :
    run_checkin "W" (runOk 5000000 7000000) =
      .ok [Ev.notify "!! NewAPI Checkin Success !!" "[W] Checkin success, Quota: 10 -> 14"] ∧
    [Ev.notify "!! NewAPI Checkin Success !!" "[W] Checkin success, Quota: 10 -> 14"].countP
      Ev.isSuccessNotify = (if (14 : ℚ) > 10 then 1 else 0) :=
  ⟨by decide,
   run_checkin_success_notification.1 "W" (runOk 5000000 7000000) 10 14
     [Ev.notify "!! NewAPI Checkin Success !!" "[W] Checkin success, Quota: 10 -> 14"]
     (by decide) (by decide) (by decide)⟩

/-- C9 counterexample: a valid-JSON body with a truthy `success` whose
`data` member is not an object makes `get_quota` raise (Python
`AttributeError` from `.get` on a non-dict) instead of returning
`round(quota / 500000, 2)`. -/
theorem get_quota_nonobject_data_counterexample :
    get_quota (some ⟨true, 200, "success-true-data-5",
        some (JsonVal.obj [("success", JsonVal.bool true), ("data", JsonVal.num 5)])⟩) =
      .error (Exn.generic "AttributeError: object has no attribute get") := by
  decide

/-- C9 amended: for every balance-probe response that is valid JSON with a
truthy `success` field *and* whose `data` member is an object (or missing)
with numeric-or-missing `quota`/`used_quota` members, `get_quota` returns
`round2 (quota / 500000)` (missing `quota` or `data` count as 0); the value
does not depend on `used_quota` nor on the body of the check-in
response. -/
theorem get_quota_success_formula :
    (∀ (st : Nat) (txt : String) (fields udFields : List (String × JsonVal)) (q u : ℚ),
      ((fields.lookup "success").getD JsonVal.null).truthy = true →
      fields.lookup "data" = some (JsonVal.obj udFields) →
      udFields.lookup "quota" = some (JsonVal.num q) →
      udFields.lookup "used_quota" = some (JsonVal.num u) →
      get_quota (some ⟨true, st, txt, some (JsonVal.obj fields)⟩) =
        .ok (round2 (q / QUOTA_DIVISOR))) ∧
    (∀ (st : Nat) (txt : String) (fields : List (String × JsonVal)),
      ((fields.lookup "success").getD JsonVal.null).truthy = true →
      fields.lookup "data" = none →
      get_quota (some ⟨true, st, txt, some (JsonVal.obj fields)⟩) = .ok 0) ∧
    (∀ (st : Nat) (txt : String) (fields udFields : List (String × JsonVal)),
      ((fields.lookup "success").getD JsonVal.null).truthy = true →
      fields.lookup "data" = some (JsonVal.obj udFields) →
      udFields.lookup "quota" = none →
      udFields.lookup "used_quota" = none →
      get_quota (some ⟨true, st, txt, some (JsonVal.obj fields)⟩) = .ok 0) ∧
    (∀ (name : String) (r1 r2 : Option RespData) (s s' : String),
      run_checkin name ⟨r1, .ok s, r2⟩ = run_checkin name ⟨r1, .ok s', r2⟩) := by
  refine ⟨?_, ?_, ?_, ?_⟩
  · intro st txt fields udFields q u h1 h2 h3 h4
    unfold get_quota
    simp [pyGetD, pyNum, h1, h2, h3, h4]
  · intro st txt fields h1 h2
    unfold get_quota
    simp [pyGetD, pyNum, h1, h2]
    decide
  · intro st txt fields udFields h1 h2 h3 h4
    unfold get_quota
    simp [pyGetD, pyNum, h1, h2, h3, h4]
    decide
  · intro name r1 r2 s s'
    rfl

/-- Witness for `get_quota_success_formula`: quota 5 000 000 and an ignored
`used_quota` yield balance 10.0. -/
theorem get_quota_success_formula_witness :
    get_quota (some ⟨true, 200, "body", some (JsonVal.obj
        [("success", JsonVal.bool true),
         ("data", JsonVal.obj [("quota", JsonVal.num 5000000), ("used_quota", JsonVal.num 123)])])⟩) =
      .ok (round2 (5000000 / QUOTA_DIVISOR)) :=
  get_quota_success_formula.1 200 "body"
    [("success", JsonVal.bool true),
     ("data", JsonVal.obj [("quota", JsonVal.num 5000000), ("used_quota", JsonVal.num 123)])]
    [("quota", JsonVal.num 5000000), ("used_quota", JsonVal.num 123)]
    5000000 123 (by decide) (by rfl) (by rfl) (by rfl)

/-- A balance-probe response whose body is not valid JSON. -/
def respBadJson : RespData := ⟨true, 200, "notjson", none⟩

/-- A `_run_checkin` oracle whose first probe returns the invalid-JSON
body. -/
def runBadJson : RunOracle := ⟨some respBadJson, .ok "x", some respBadJson⟩

/-- An account oracle whose cached attempt hits the invalid-JSON probe. -/
def aoBadCached : AccountOracle := ⟨.ok (), runBadJson, oauthOkOracle, runOk 5000000 6000000⟩

/-- A cache holding an entry for the fixture domain. -/
def cacheX : Cache := fun d => if d = "https://x.y" then some ⟨"9", [("session", "t")]⟩ else none

/-- C5 counterexample.  First: a JSON body that lacks a truthy `success`
field because it is a JSON array makes `get_quota` raise an *unclassified*
error (Python `AttributeError`), not the claimed `HTTPError`.  Second: a
malformed balance response on the cached-cookies path does raise the
classified `HTTPError`, and `process_account` catches it — but, with no
identity-provider context, it finishes with zero notifier reports,
contradicting "reported via the notifiers". -/
theorem get_quota_classified_counterexample :
    get_quota (some ⟨true, 200, "arraybody", some (JsonVal.arr [])⟩) =
      .error (Exn.generic "AttributeError: object has no attribute get") ∧
    cachedAttempt "A" aoBadCached =
      .error (Exn.http "[/api/user/self] Invalid JSON response" 200) ∧
    (process_account false acctFix cacheX aoBadCached).2.countP Ev.isNotify = 0 := by
  refine ⟨by decide, by decide, by decide⟩

/-- C5 amended: for a missing response, a non-ok status, an invalid-JSON
body, or a JSON-*object* body without a truthy `success` field, `get_quota`
raises the classified `HTTPError`.  An `HTTPError` from the OAuth-path
check-in is caught by `process_account`'s handler, logged and reported via
the notifiers; an `HTTPError` from the cached-cookies attempt is caught and
logged but leads to the OAuth fallback or an error-logged skip with no
notifier report.  Either way `process_account` returns normally, so the run
continues. -/
theorem get_quota_classified_and_reporting :
    (∀ resp : Option RespData,
      (resp = none ∨ ∃ r : RespData, resp = some r ∧
        (r.ok = false ∨ r.parsed = none ∨
         ∃ fields, r.parsed = some (JsonVal.obj fields) ∧
           ((fields.lookup "success").getD JsonVal.null).truthy = false)) →
      ∃ m s, get_quota resp = .error (Exn.http m s)) ∧
    (∀ (acc : Account) (cache : Cache) (o : AccountOracle) (d : String)
       (oevs : List Ev) (s : String) (cd : List (String × String)) (m : String) (st : Nat),
      acc.domain = some d → d ≠ "" → cache d = none →
      oauth_authorize acc o.oauth = .ok (oevs, some s, cd) → s ≠ "" → cd ≠ [] →
      run_checkin (acc.name.getD "Unknown") o.oauthRun = .error (Exn.http m st) →
      Ev.notify "!! NewAPI Checkin Error !!"
          ("[" ++ acc.name.getD "Unknown" ++ "] HTTP error: " ++ m)
        ∈ (process_account true acc cache o).2) ∧
    (∀ (acc : Account) (cache : Cache) (o : AccountOracle) (d : String)
       (entry : CacheEntry) (m : String) (st : Nat),
      acc.domain = some d → d ≠ "" → cache d = some entry →
      cachedAttempt (acc.name.getD "Unknown") o = .error (Exn.http m st) →
      (process_account false acc cache o).2.countP Ev.isNotify = 0 ∧
      Ev.logError ("[" ++ acc.name.getD "Unknown" ++ "] Checkin failed and OAuth unavailable, skipping")
        ∈ (process_account false acc cache o).2) := by
  refine ⟨?_, ?_, ?_⟩
  · intro resp h
    rcases h with rfl | ⟨r, rfl, hr⟩
    · exact ⟨_, _, rfl⟩
    · obtain ⟨ok, st, txt, parsed⟩ := r
      rcases hr with hok | hparse | ⟨fields, hparse, hsucc⟩
      · simp only at hok
        subst hok
        exact ⟨_, _, rfl⟩
      · simp only at hparse
        subst hparse
        cases ok
        · exact ⟨_, _, rfl⟩
        · exact ⟨_, _, rfl⟩
      · simp only at hparse
        subst hparse
        cases ok
        · exact ⟨_, _, rfl⟩
        · refine ⟨"[/api/user/self] Failed to get user info", st, ?_⟩
          unfold get_quota
          simp [pyGetD, hsucc]
  · intro acc cache o d oevs s cd m st hdom hd hcache hoauth hs hcd hrun
    have htr : (optStrTruthy (some s) && !cd.isEmpty) = true := by
      cases cd with
      | nil => exact absurd rfl hcd
      | cons a t => simp [optStrTruthy, hs]
    unfold process_account
    simp only [hdom, Option.getD_some]
    rw [if_neg hd, hcache]
    unfold oauthStep
    rw [hoauth]
    simp [htr, hrun, accountExcept, Exn.pyMsg]
  · intro acc cache o d entry m st hdom hd hcache hrun
    unfold process_account
    simp only [hdom, Option.getD_some]
    rw [if_neg hd, hcache]
    rw [hrun]
    unfold oauthStep
    constructor
    · simp [Ev.isNotify, List.countP_cons]
    · simp

/-- Witness for `get_quota_classified_and_reporting`: the missing-response
case is classified. -/
theorem get_quota_classified_and_reporting_witness :
    ∃ m s, get_quota none = .error (Exn.http m s) :=
  get_quota_classified_and_reporting.1 none (Or.inl rfl)

/-- Cache characterization of `oauthStep`: the cache comes back unchanged
unless `oauth_authorize` succeeded with a truthy `api_user` and a non-empty
cookies dict, in which case it is exactly the wholesale update for the
given domain. -/
theorem oauthStep_cache_eq (ctx : Bool) (name domain : String) (acc : Account)
    (cache : Cache) (o : AccountOracle) (had : Bool) :
    (oauthStep ctx name domain acc cache o had).1 = cache ∨
    ∃ oevs s cd, oauth_authorize acc o.oauth = .ok (oevs, some s, cd) ∧ s ≠ "" ∧ cd ≠ [] ∧
      (oauthStep ctx name domain acc cache o had).1 = update_cookies_cache cache domain s cd := by
  unfold oauthStep
  split
  · left; rfl
  · split
    case h_1 x e heq =>
      left
      unfold accountExcept
      split <;> rfl
    case h_2 x oevs au cd heq =>
      split
      case isTrue htr =>
        rw [Bool.and_eq_true] at htr
        obtain ⟨htr1, htr2⟩ := htr
        obtain ⟨s, rfl, hs⟩ : ∃ s, au = some s ∧ s ≠ "" := by
          cases au with
          | none => exact absurd htr1 (by simp [optStrTruthy])
          | some s =>
            refine ⟨s, rfl, ?_⟩
            intro hcontra
            subst hcontra
            simp [optStrTruthy] at htr1
        have hcd : cd ≠ [] := by
          intro hcontra
          subst hcontra
          simp at htr2
        right
        refine ⟨oevs, s, cd, heq, hs, hcd, ?_⟩
        split
        · rfl
        · unfold accountExcept
          split <;> rfl
      case isFalse => left; rfl

/-- Cache characterization of `process_account` (same statement one level
up). -/
theorem process_account_cache_eq (ctx : Bool) (acc : Account) (cache : Cache)
    (o : AccountOracle) :
    (process_account ctx acc cache o).1 = cache ∨
    ∃ oevs s cd, oauth_authorize acc o.oauth = .ok (oevs, some s, cd) ∧ s ≠ "" ∧ cd ≠ [] ∧
      (process_account ctx acc cache o).1 =
        update_cookies_cache cache (acc.domain.getD "") s cd := by
  unfold process_account
  dsimp only
  split
  · left; rfl
  · split
    case h_1 _entry heq =>
      split
      case h_1 revs hrun => left; rfl
      case h_2 e hrun =>
        rcases oauthStep_cache_eq ctx (acc.name.getD "Unknown") (acc.domain.getD "")
            acc cache o true with h | ⟨oevs, s, cd, h1, h2, h3, h4⟩
        · left; exact h
        · right; exact ⟨oevs, s, cd, h1, h2, h3, h4⟩
    case h_2 heq =>
      rcases oauthStep_cache_eq ctx (acc.name.getD "Unknown") (acc.domain.getD "")
          acc cache o false with h | ⟨oevs, s, cd, h1, h2, h3, h4⟩
      · left; exact h
      · right; exact ⟨oevs, s, cd, h1, h2, h3, h4⟩

/-- An `oauth_authorize` oracle that raises on the first navigation. -/
def oauthFailOracle : OauthOracle :=
  ⟨.error (.generic "net down"), .ok (), none, .ok (), "", JsonVal.null, []⟩

/-- An account oracle whose cached attempt fails and whose OAuth raises. -/
def aoOauthFail : AccountOracle := ⟨.ok (), runBadJson, oauthFailOracle, runOk 5000000 6000000⟩

/-- C2: the cookies cache entry for the account's domain is rewritten only
when `oauth_authorize` returned a truthy `api_user` *and* a non-empty
cookies dict (then with exactly that pair); when OAuth raises or returns a
falsy result, the whole cache — in particular the entry previously stored
for that domain, or its absence — is exactly as it was. -/
theorem process_account_cache_update_guard :
    ∀ (ctx : Bool) (acc : Account) (cache : Cache) (o : AccountOracle),
      ((process_account ctx acc cache o).1 = cache ∨
        ∃ oevs s cd, oauth_authorize acc o.oauth = .ok (oevs, some s, cd) ∧ s ≠ "" ∧ cd ≠ [] ∧
          (process_account ctx acc cache o).1 =
            update_cookies_cache cache (acc.domain.getD "") s cd) ∧
      (∀ oevs au cd, oauth_authorize acc o.oauth = .ok (oevs, au, cd) →
        (optStrTruthy au && !cd.isEmpty) = false →
        (process_account ctx acc cache o).1 = cache) ∧
      (∀ e, oauth_authorize acc o.oauth = .error e →
        (process_account ctx acc cache o).1 = cache) := by
  intro ctx acc cache o
  refine ⟨process_account_cache_eq ctx acc cache o, ?_, ?_⟩
  · intro oevs au cd hok hfalsy
    rcases process_account_cache_eq ctx acc cache o with h | ⟨oevs', s, cd', h1, h2, h3, h4⟩
    · exact h
    · rw [hok] at h1
      simp only [Except.ok.injEq, Prod.mk.injEq] at h1
      obtain ⟨-, hau, hcd⟩ := h1
      subst hau
      subst hcd
      exfalso
      have htr : (optStrTruthy (some s) && !cd.isEmpty) = true := by
        cases cd with
        | nil => exact absurd rfl h3
        | cons a t => simp [optStrTruthy, h2]
      rw [htr] at hfalsy
      exact Bool.noConfusion hfalsy
  · intro e herr
    rcases process_account_cache_eq ctx acc cache o with h | ⟨oevs', s, cd', h1, -, -, -⟩
    · exact h
    · rw [herr] at h1
      exact Except.noConfusion h1

/-- Witness for `process_account_cache_update_guard`: a raising OAuth
leaves the empty cache untouched. -/
theorem process_account_cache_update_guard_witness :
    (process_account true acctFix emptyCache aoOauthFail).1 = emptyCache :=
  (process_account_cache_update_guard true acctFix emptyCache aoOauthFail).2.2
    (.generic "net down") (by decide)

/-- C4: cache updates replace the whole entry of one domain with a fresh
`{api_user, cookies}` record, leave every other domain unchanged, and
happen only after a successful truthy OAuth; across a whole run, a domain
belonging to no account is never touched. -/
theorem cache_update_wholesale_and_frame :
    (∀ (cache : Cache) (d au : String) (ck : List (String × String)) (d' : String),
      update_cookies_cache cache d au ck d' = if d' = d then some ⟨au, ck⟩ else cache d') ∧
    (∀ (ctx : Bool) (acc : Account) (cache : Cache) (o : AccountOracle) (d' : String),
      d' ≠ acc.domain.getD "" →
      (process_account ctx acc cache o).1 d' = cache d') ∧
    (∀ (ctx : Bool) (acc : Account) (cache : Cache) (o : AccountOracle),
      (process_account ctx acc cache o).1 ≠ cache →
      ∃ oevs s cd, oauth_authorize acc o.oauth = .ok (oevs, some s, cd) ∧ s ≠ "" ∧ cd ≠ []) ∧
    (∀ (ctx : Bool) (oracles : Nat → AccountOracle) (accounts : List Account)
       (cache : Cache) (i : Nat) (d : String),
      (∀ a ∈ accounts, a.domain.getD "" ≠ d) →
      (processAll ctx oracles accounts cache i).1 d = cache d) := by
  have frame : ∀ (ctx : Bool) (acc : Account) (cache : Cache) (o : AccountOracle) (d' : String),
      d' ≠ acc.domain.getD "" → (process_account ctx acc cache o).1 d' = cache d' := by
    intro ctx acc cache o d' hne
    rcases process_account_cache_eq ctx acc cache o with h | ⟨-, s, cd, -, -, -, h4⟩
    · rw [h]
    · rw [h4]
      unfold update_cookies_cache
      rw [if_neg hne]
  refine ⟨?_, frame, ?_, ?_⟩
  · intro cache d au ck d'
    rfl
  · intro ctx acc cache o hne
    rcases process_account_cache_eq ctx acc cache o with h | ⟨oevs, s, cd, h1, h2, h3, -⟩
    · exact absurd h hne
    · exact ⟨oevs, s, cd, h1, h2, h3⟩
  · intro ctx oracles accounts
    induction accounts with
    | nil =>
      intro cache i d h
      rfl
    | cons a rest ih =>
      intro cache i d h
      calc (processAll ctx oracles (a :: rest) cache i).1 d
          = (processAll ctx oracles rest (process_account ctx a cache (oracles i)).1 (i + 1)).1 d := rfl
        _ = (process_account ctx a cache (oracles i)).1 d :=
            ih _ _ _ (fun x hx => h x (List.mem_cons_of_mem a hx))
        _ = cache d := frame ctx a cache (oracles i) d (Ne.symm (h a (List.mem_cons_self a rest)))

/-- Witness for `cache_update_wholesale_and_frame`: another domain's entry
is untouched by a run that does update the fixture domain. -/
theorem cache_update_wholesale_and_frame_witness :
    (process_account true acctFix emptyCache aoFix).1 "https://other" = emptyCache "https://other" :=
  cache_update_wholesale_and_frame.2.1 true acctFix emptyCache aoFix "https://other" (by decide)

/-- Whether a modelled `await` raised. -/
def exnFailed : Except Exn (List Ev) → Bool
  | .error _ => true
  | .ok _ => false

/-- Lemma: `oauthStep` calls `oauth_authorize` exactly once when an
identity-provider context exists, never otherwise. -/
theorem oauthStep_oauthCall_count (ctx : Bool) (name domain : String) (acc : Account)
    (cache : Cache) (o : AccountOracle) (had : Bool) :
    (oauthStep ctx name domain acc cache o had).2.countP Ev.isOauthCall =
      if ctx then 1 else 0 := by
  unfold oauthStep
  split
  case isTrue h =>
    have hctx : ctx = false := by revert h; cases ctx <;> simp
    rw [hctx]
    simp [Ev.isOauthCall, List.countP_cons]
  case isFalse h =>
    have hctx : ctx = true := by revert h; cases ctx <;> simp
    rw [hctx]
    split
    case h_1 x e heq =>
      unfold accountExcept
      split <;> simp [Ev.isOauthCall, List.countP_cons, List.countP_append]
    case h_2 x oevs au cd heq =>
      have hall := oauth_ok_all_log acc o.oauth oevs au cd heq
      obtain ⟨-, -, -, -, ha5, -, -⟩ := all_log_counts hall
      split
      · split
        case h_1 revs hrun =>
          have hrall := run_checkin_ok_all_notify name o.oauthRun revs hrun
          obtain ⟨-, -, -, -, hb5, -⟩ := all_notify_counts hrall
          simp [List.countP_append, List.countP_cons, ha5, hb5, Ev.isOauthCall]
        case h_2 e hrun =>
          unfold accountExcept
          split <;> simp [List.countP_append, List.countP_cons, ha5, Ev.isOauthCall]
      · simp [List.countP_append, List.countP_cons, ha5, Ev.isOauthCall]

/-- C3: with a non-empty domain, `process_account` tries the cached-cookies
check-in first whenever a cache entry exists (the trace starts by opening
the fallback context); `oauth_authorize` is called exactly once when an
identity-provider context is available and either there was no cache entry
or the cached attempt raised, and never otherwise; with neither a cache
entry nor a context, the account is skipped with only an error log, the
cache untouched, and no exception reaches the caller. -/
theorem process_account_fallback_order :
    ∀ (ctx : Bool) (acc : Account) (cache : Cache) (o : AccountOracle) (d : String),
      acc.domain = some d → d ≠ "" →
      (∀ entry, cache d = some entry →
        ∃ rest, (process_account ctx acc cache o).2 = Ev.openFallbackCtx :: rest) ∧
      ((process_account ctx acc cache o).2.countP Ev.isOauthCall =
        if ctx && ((cache d).isNone || exnFailed (cachedAttempt (acc.name.getD "Unknown") o))
        then 1 else 0) ∧
      (cache d = none → ctx = false →
        process_account ctx acc cache o =
          (cache, [Ev.logError ("[" ++ acc.name.getD "Unknown" ++
            "] No cached cookies and OAuth unavailable, skipping")])) := by
  intro ctx acc cache o d hdom hd
  unfold process_account
  simp only [hdom, Option.getD_some]
  rw [if_neg hd]
  refine ⟨?_, ?_, ?_⟩
  · intro entry hentry
    rw [hentry]
    dsimp only
    cases hrun : cachedAttempt (acc.name.getD "Unknown") o with
    | ok revs => exact ⟨revs ++ [Ev.closeFallbackCtx], rfl⟩
    | error e => exact ⟨_, rfl⟩
  · cases hentry : cache d with
    | some entry =>
      cases hrun : cachedAttempt (acc.name.getD "Unknown") o with
      | ok revs =>
        have hrall := cachedAttempt_ok_all_notify (acc.name.getD "Unknown") o revs hrun
        obtain ⟨-, -, -, -, hb5, -⟩ := all_notify_counts hrall
        simp [exnFailed, List.countP_append, List.countP_cons, hb5, Ev.isOauthCall]
      | error e =>
        simp [exnFailed, List.countP_append, List.countP_cons, Ev.isOauthCall,
          oauthStep_oauthCall_count]
    | none =>
      simp [exnFailed, oauthStep_oauthCall_count]
  · intro hnone hctx
    rw [hnone, hctx]
    unfold oauthStep
    simp

/-- Witness for `process_account_fallback_order`: a cached entry whose
attempt raises, with a context available, leads to exactly one OAuth
attempt. -/
theorem process_account_fallback_order_witness :
    (process_account true acctFix cacheX aoBadCached).2.countP Ev.isOauthCall =
      (if true && ((cacheX "https://x.y").isNone ||
          exnFailed (cachedAttempt (acctFix.name.getD "Unknown") aoBadCached))
       then 1 else 0) :=
  (process_account_fallback_order true acctFix cacheX aoBadCached "https://x.y"
    rfl (by decide)).2.1

/-- Whether a notification event is a POST attempt. -/
def NotifyEv.isAttempt : NotifyEv → Bool
  | .attempted _ _ => true
  | _ => false

/-- The guarded send body only ever produces a success-log event. -/
theorem ntfySendBody_ok (n : NtfyNotifier) (post : Except Exn Nat) (ev : NotifyEv)
    (h : ntfySendBody n post = .ok ev) : ev = NotifyEv.sent n.url := by
  unfold ntfySendBody at h
  cases post with
  | error e => exact absurd h (by simp)
  | ok status =>
    dsimp only at h
    split at h
    · exact absurd h (by simp)
    · cases h; rfl

/-- Every notifier in the loop is attempted exactly once, whatever each
POST does. -/
theorem sendLoop_attempts (title message : String) :
    ∀ (notifiers : List NtfyNotifier) (posts : Nat → Except Exn Nat) (i : Nat),
      (sendLoop title message notifiers posts i).countP NotifyEv.isAttempt = notifiers.length ∧
      ∀ n ∈ notifiers, NotifyEv.attempted n.url title ∈ sendLoop title message notifiers posts i := by
  intro notifiers
  induction notifiers with
  | nil =>
    intro posts i
    simp [sendLoop]
  | cons n rest ih =>
    intro posts i
    unfold sendLoop
    constructor
    · have hsend : (n.send title message (posts i)).countP NotifyEv.isAttempt = 1 := by
        unfold NtfyNotifier.send
        cases hb : ntfySendBody n (posts i) with
        | error e => simp [NotifyEv.isAttempt, List.countP_cons]
        | ok ev =>
          rw [ntfySendBody_ok n (posts i) ev hb]
          simp [NotifyEv.isAttempt, List.countP_cons]
      simp [List.countP_append, hsend, (ih posts (i + 1)).1]
      omega
    · intro m hm
      rcases List.mem_cons.mp hm with rfl | hmem
      · apply List.mem_append_left
        unfold NtfyNotifier.send
        exact List.mem_cons_self _ _
      · exact List.mem_append_right _ ((ih posts (i + 1)).2 m hmem)

/-- C8: `send_notifications` over the notifiers built by `create_notifiers`
never raises to its caller, and it invokes `send` (one POST attempt) on
every notifier in the list, whatever any individual POST outcome is — one
sink's failure blocks neither the other sinks nor the caller. -/
theorem send_notifications_total_fanout :
    ∀ (cfgs : List NotifyCfg) (title message : String) (posts : Nat → Except Exn Nat),
      ∃ evs, send_notifications (create_notifiers cfgs) title message posts = .ok evs ∧
        evs.countP NotifyEv.isAttempt = (create_notifiers cfgs).length ∧
        ∀ n ∈ create_notifiers cfgs, NotifyEv.attempted n.url title ∈ evs := by
  intro cfgs title message posts
  by_cases hn : create_notifiers cfgs = []
  · refine ⟨[], ?_, ?_, ?_⟩
    · simp [send_notifications, hn]
    · simp [hn]
    · simp [hn]
  · have hne : (create_notifiers cfgs).isEmpty = false := by
      cases hcn : create_notifiers cfgs with
      | nil => exact absurd hcn hn
      | cons a t => rfl
    obtain ⟨h1, h2⟩ := sendLoop_attempts title message (create_notifiers cfgs) posts 0
    refine ⟨sendLoop title message (create_notifiers cfgs) posts 0, ?_, h1, h2⟩
    unfold send_notifications
    rw [hne]
    rfl

/-- Notifier configs: two ntfy sinks (one without a URL) and one ignored
entry. -/
def cfgsFix : List NotifyCfg :=
  [⟨some "ntfy", some "http://n1"⟩, ⟨some "other", some "x"⟩, ⟨some "ntfy", none⟩]

/-- POST oracle whose first call raises. -/
def postsFix : Nat → Except Exn Nat := fun i => if i = 0 then .error (.generic "down") else .ok 200

/-- Witness for `send_notifications_total_fanout` with a failing first
sink. -/
theorem send_notifications_total_fanout_witness :
    ∃ evs, send_notifications (create_notifiers cfgsFix) "T" "M" postsFix = .ok evs ∧
      evs.countP NotifyEv.isAttempt = (create_notifiers cfgsFix).length ∧
      ∀ n ∈ create_notifiers cfgsFix, NotifyEv.attempted n.url "T" ∈ evs :=
  send_notifications_total_fanout cfgsFix "T" "M" postsFix

/-- The account loop visits every account: the processed count equals the
list length, for every starting cache and index. -/
theorem processAll_length (ctx : Bool) (oracles : Nat → AccountOracle) :
    ∀ (accounts : List Account) (cache : Cache) (i : Nat),
      (processAll ctx oracles accounts cache i).2.2 = accounts.length := by
  intro accounts
  induction accounts with
  | nil => intro cache i; rfl
  | cons a rest ih =>
    intro cache i
    unfold processAll
    dsimp only
    rw [ih]
    simp

/-- The environment with a malformed `CHECKIN_ACCOUNTS`. -/
def envBad : Env := ⟨none, none, some "notjson", none, none, none, false, none⟩

/-- The environment with no config source at all. -/
def envNone : Env := ⟨none, none, none, none, none, none, false, none⟩

/-- A benign `main` oracle. -/
def moFix : MainOracle := ⟨.ok (), fun _ => aoFix, .ok (), .ok ()⟩

/-- C6 counterexample: with `CHECKIN_ACCOUNTS` set but not valid JSON, the
run dies before any account with a `json.JSONDecodeError` — a fatal error
that is not the claimed "no CHECKIN_ACCOUNTS and no config.json →
RuntimeError" condition. -/
theorem main_run_fatal_parse_counterexample :
    main_run envBad emptyCache moFix =
      .error (.generic "json.JSONDecodeError: CHECKIN_ACCOUNTS") ∧
    optStrTruthy envBad.accounts_env = true := by
  exact ⟨rfl, by decide⟩

/-- C6 amended: per-account errors are isolated — whenever `load_config`
succeeds, `main` completes without raising, processes every account of the
configuration, and reaches the cookies-cache save; the fatal errors are
exactly the config-load failures: with neither `CHECKIN_ACCOUNTS` nor
`config.json` a `RuntimeError` is raised before any account is processed,
and malformed JSON in the consulted source is likewise fatal. -/
theorem main_run_error_isolation :
    (∀ (env : Env) (cache0 : Cache) (mo : MainOracle) (c : Config),
      load_config env = .ok c →
      ∃ r, main_run env cache0 mo = .ok r ∧ r.processed = c.accounts.length ∧
        Ev.saveCache ∈ r.events) ∧
    (∀ (env : Env) (cache0 : Cache) (mo : MainOracle),
      optStrTruthy env.accounts_env = false → env.configFileExists = false →
      main_run env cache0 mo =
        .error (.generic "RuntimeError: No config found. Set CHECKIN_ACCOUNTS env or create config.json")) := by
  constructor
  · intro env cache0 mo c hc
    unfold main_run
    rw [hc]
    dsimp only
    cases hs : mo.saveResult with
    | ok u =>
      refine ⟨_, rfl, ?_, ?_⟩
      · exact processAll_length _ _ _ _ _
      · simp [List.mem_append]
    | error e =>
      refine ⟨_, rfl, ?_, ?_⟩
      · exact processAll_length _ _ _ _ _
      · simp [List.mem_append]
  · intro env cache0 mo h1 h2
    unfold main_run load_config
    rw [h1, h2]
    rfl

/-- Witness for `main_run_error_isolation`: no env, no file, `RuntimeError`
before any account. -/
theorem main_run_error_isolation_witness :
    main_run envNone emptyCache moFix =
      .error (.generic "RuntimeError: No config found. Set CHECKIN_ACCOUNTS env or create config.json") :=
  main_run_error_isolation.2 envNone emptyCache moFix (by decide) (by decide)
